import Mathlib

/-!
A shallow embedding of the worker runtime core of this repository, centred on
`src/shared/worker-sdk/python/worker_sdk.py` (class `WorkerSDK`), with the
registry variant of `src/services/python-worker-v2/decorators.py` in mind.

Modelling conventions:
* Python dicts keyed by strings become association lists with python-dict
  update semantics (`dictInsert` replaces in place, `dictErase` removes).
* JSON values produced/consumed by handlers become the inductive `Value`;
  `json.dumps` of a structured value is modelled as `Content.json`, and
  `json.loads` as `jsonLoads` (failing on empty or malformed content).
* A handler raising an exception is modelled by the handler returning
  `Except.error msg` (the exception's message).
* Wall-clock readings (`time.time()`, `datetime.now()`) are oracle
  parameters (`now : Nat`, `ts : String`).
* `uuid.uuid4()` in `call_worker` is an oracle parameter `request_id`.
* The blocking wait on `threading.Event` in `call_worker` is an oracle
  `WaitOutcome` describing how the wait ended (resolved by the receive
  loop with a response or a parse error, or timed out).
-/

namespace WorkerSDK

/-- JSON-like structured values exchanged as capability inputs/outputs. -/
inductive Value where
  | null : Value
  | bool : Bool → Value
  | num : Int → Value
  | str : String → Value
  | arr : List Value → Value
  | dict : List (String × Value) → Value

/-- `isinstance(result, dict)` (worker_sdk.py line 218). -/
def Value.isDict : Value → Bool
  | Value.dict _ => true
  | _ => false

/-- The wire content of a message: empty string, a well-formed serialized
structure, or an unparseable string. -/
inductive Content where
  | empty : Content
  | json : Value → Content
  | malformed : String → Content

/-- `json.loads` on raw content: raises (returns `none`) on empty or
malformed input. -/
def jsonLoads : Content → Option Value
  | Content.json v => some v
  | _ => none

/-- `json.loads(msg.content) if msg.content else {}` (worker_sdk.py
line 212): empty content yields the empty dict instead of raising. -/
def loadsOrEmpty : Content → Option Value
  | Content.empty => some (Value.dict [])
  | c => jsonLoads c

/-- The `hub.proto` message type enum as used by the python workers
(REGISTER, REQUEST, RESPONSE, WORKER_CALL, DIRECT). -/
inductive MessageType where
  | REGISTER | REQUEST | RESPONSE | WORKER_CALL | DIRECT
deriving DecidableEq

/-- The `hub_pb2.Message` envelope. The python reserved word `from` is
rendered `from_`. `metadata` is a string-to-string map. -/
structure Message where
  id : String
  from_ : String
  to_ : String
  channel : String
  content : Content
  timestamp : String
  type : MessageType
  metadata : List (String × String)

/-- Association-list lookup with python `dict.__getitem__` / `in` semantics
(keys are unique, first binding wins). -/
def dictGet {α : Type} : List (String × α) → String → Option α
  | [], _ => none
  | (k', v') :: rest, k => if k' == k then some v' else dictGet rest k

/-- Python `d[k] = v`: replace the binding in place if the key is present,
else append it. -/
def dictInsert {α : Type} : List (String × α) → String → α → List (String × α)
  | [], k, v => [(k, v)]
  | (k', v') :: rest, k, v =>
      if k' == k then (k, v) :: rest else (k', v') :: dictInsert rest k v

/-- Python `del d[k]` / `d.pop(k, None)`: remove the binding for `k`. -/
def dictErase {α : Type} : List (String × α) → String → List (String × α)
  | [], _ => []
  | (k', v') :: rest, k =>
      if k' == k then dictErase rest k else (k', v') :: dictErase rest k

/-- A capability handler: structured params in, structured result out;
`Except.error e` models the handler raising an exception with message `e`. -/
def Handler : Type := Value → Except String Value

/-- The capability descriptor dict built by `WorkerSDK.add_capability`
(worker_sdk.py lines 103-112); `file_field_name` is added only when
non-empty. -/
structure Capability where
  name : String
  description : String
  input_schema : String
  output_schema : String
  http_method : String
  accepts_file : Bool
  file_field_name : Option String
deriving DecidableEq

/-- The two registry dicts owned by a `WorkerSDK` instance
(`capability_handlers` and `capabilities`). -/
structure Registry where
  capability_handlers : List (String × Handler)
  capabilities : List (String × Capability)

/-- `WorkerSDK.add_capability` (worker_sdk.py lines 78-114): stores the
handler and builds the descriptor dict. There is no duplicate check:
`self.capability_handlers[name] = handler` overwrites any existing
binding. -/
def add_capability (reg : Registry) (name : String) (handler : Handler)
    (description : String) (http_method : String) (accepts_file : Bool)
    (file_field_name : String) (input_schema : String) (output_schema : String) :
    Registry :=
  let cap : Capability :=
    { name := name
      description := description
      input_schema := input_schema
      output_schema := output_schema
      http_method := http_method
      accepts_file := accepts_file
      file_field_name := if file_field_name ≠ "" then some file_field_name else none }
  { capability_handlers := dictInsert reg.capability_handlers name handler
    capabilities := dictInsert reg.capabilities name cap }

/-- `WorkerSDK._process_message` (worker_sdk.py lines 200-228), returning
the serialized response content together with the list of handler names
invoked (instrumenting the control flow so that "no handler is invoked"
is a provable statement). The parse-failure exception text is
environment-dependent in python and is modelled by a fixed string. -/
def process_message (handlers : List (String × Handler)) (msg : Message) :
    Content × List String :=
  let channel := msg.channel
  match dictGet handlers channel with
  | none =>
      (Content.json (Value.dict
        [("error", Value.str ("Unknown capability: " ++ channel)),
         ("status", Value.str "failed")]), [])
  | some handler =>
      match loadsOrEmpty msg.content with
      | none =>
          (Content.json (Value.dict
            [("error", Value.str "invalid JSON in message content"),
             ("status", Value.str "failed")]), [])
      | some params =>
          match handler params with
          | Except.error e =>
              (Content.json (Value.dict
                [("error", Value.str e),
                 ("status", Value.str "failed")]), [channel])
          | Except.ok result =>
              (Content.json
                (if result.isDict then result else Value.dict [("result", result)]),
               [channel])

/-- The bookkeeping record created in `call_worker` for one outstanding
worker-to-worker call (`{'event': response_event, 'data': response_data}`,
worker_sdk.py lines 159-166): whether the event has been set, and the
`response`/`error` slots of the data dict. -/
structure PendingCall where
  event_set : Bool
  response : Option Value
  error : Option String

/-- The entry freshly registered by `call_worker`: event not yet set,
both result slots `None`. -/
def freshPendingCall : PendingCall :=
  { event_set := false, response := none, error := none }

/-- The mutable connection state of a `WorkerSDK` instance that the claims
are about: `running`, the `pending_calls` correlation table, the outbound
`send_queue` (FIFO, modelled head-first), and whether the gRPC channel is
open. -/
structure SDKState where
  worker_id : String
  running : Bool
  channel_open : Bool
  pending_calls : List (String × PendingCall)
  send_queue : List Message

/-- Primitive state operations performed by `call_worker`, in the order the
source executes them; `genId` marks the `uuid.uuid4()` call and does not
change the state. -/
inductive Op where
  | genId : String → Op
  | registerPending : String → Op
  | enqueue : Message → Op
  | popPending : String → Op

def applyOp (st : SDKState) : Op → SDKState
  | Op.genId _ => st
  | Op.registerPending rid =>
      { st with pending_calls := dictInsert st.pending_calls rid freshPendingCall }
  | Op.enqueue m => { st with send_queue := st.send_queue ++ [m] }
  | Op.popPending rid =>
      { st with pending_calls := dictErase st.pending_calls rid }

def applyOps (st : SDKState) (ops : List Op) : SDKState :=
  ops.foldl applyOp st

/-- How the blocking `response_event.wait(timeout=timeout)` in `call_worker`
ended: the receive loop delivered a parsed response, delivered a parse
error, or the wait timed out. -/
inductive WaitOutcome where
  | resolvedOk : Value → WaitOutcome
  | resolvedErr : String → WaitOutcome
  | timedOut : WaitOutcome

/-- What `call_worker` does for its caller: return the response dict, or
raise `Exception(error)`, `TimeoutError`, or `RuntimeError` ("Worker not
connected"). -/
inductive CallResult where
  | ok : Value → CallResult
  | errResponse : String → CallResult
  | timeout : String → CallResult
  | notRunning : CallResult

/-- The `WORKER_CALL` envelope built in `call_worker` (worker_sdk.py lines
147-156): `content = json.dumps(params)`, `metadata['capability']` set. -/
def mkCallMsg (worker_id target capability : String) (params : Value)
    (request_id ts : String) : Message :=
  { id := request_id
    from_ := worker_id
    to_ := target
    channel := capability
    content := Content.json params
    timestamp := ts
    type := MessageType.WORKER_CALL
    metadata := [("capability", capability)] }

/-- The ordered list of state operations `call_worker` performs after the
`running` check (worker_sdk.py lines 142-180): generate the correlation id,
register the pending call under `pending_lock`, put the call envelope on
the send queue, then — only on timeout — pop the entry back out. (When the
wait is resolved, the entry's removal is done by the receive loop via
`_handle_worker_call_response`, not by `call_worker`.) -/
def call_worker_ops (request_id : String) (call_msg : Message)
    (wait : WaitOutcome) : List Op :=
  [Op.genId request_id, Op.registerPending request_id, Op.enqueue call_msg] ++
    match wait with
    | WaitOutcome.timedOut => [Op.popPending request_id]
    | _ => []

/-- `WorkerSDK.call_worker` (worker_sdk.py lines 116-180): raises
`RuntimeError` before doing anything when not running; otherwise executes
`call_worker_ops` on the state and returns the outcome dictated by the
wait oracle. Returns (result, final state, executed operation trace). -/
def call_worker (st : SDKState) (target capability : String) (params : Value)
    (request_id ts : String) (timeout : Nat) (wait : WaitOutcome) :
    CallResult × SDKState × List Op :=
  if st.running then
    let call_msg := mkCallMsg st.worker_id target capability params request_id ts
    let ops := call_worker_ops request_id call_msg wait
    let result :=
      match wait with
      | WaitOutcome.resolvedOk v => CallResult.ok v
      | WaitOutcome.resolvedErr e => CallResult.errResponse e
      | WaitOutcome.timedOut =>
          CallResult.timeout
            ("No response from " ++ target ++ " after " ++ toString timeout ++ "s")
    (result, applyOps st ops, ops)
  else
    (CallResult.notRunning, st, [])

/-- `WorkerSDK._handle_worker_call_response` (worker_sdk.py lines 182-198):
given the current `pending_calls` table and an inbound `RESPONSE` envelope,
returns the new table together with the resolution delivered to the waiter
(`none` when the response matched no entry and was discarded). The python
aliasing — `call_info['data']` is the same dict `call_worker` blocks on —
is modelled by returning the waiter's final cell contents. The
parse-failure exception text is environment-dependent and modelled by a
fixed string. -/
def handle_worker_call_response (pending : List (String × PendingCall))
    (msg : Message) : List (String × PendingCall) × Option (String × PendingCall) :=
  let request_id := (dictGet msg.metadata "request_id").getD ""
  if request_id ≠ "" ∧ (dictGet pending request_id).isSome then
    match jsonLoads msg.content with
    | some v =>
        (dictErase pending request_id,
         some (request_id, { event_set := true, response := some v, error := none }))
    | none =>
        (dictErase pending request_id,
         some (request_id,
               { event_set := true, response := none,
                 error := some "Failed to parse response" }))
  else
    (pending, none)

/-- One iteration of the body of `WorkerSDK._receive_loop` (worker_sdk.py
lines 281-325) on a single inbound envelope. `now` is the wall-clock
oracle used for the generated response id and timestamp. A `RESPONSE` goes
to the correlation table; a `WORKER_CALL` is dispatched and answered with
`metadata = {request_id: msg.id, status: success}`; anything else falls
into the "Regular REQUEST" branch, which answers with empty metadata. -/
def receive_step (handlers : List (String × Handler)) (st : SDKState)
    (msg : Message) (now : Nat) : SDKState :=
  match msg.type with
  | MessageType.RESPONSE =>
      { st with pending_calls := (handle_worker_call_response st.pending_calls msg).1 }
  | MessageType.WORKER_CALL =>
      let response_content := (process_message handlers msg).1
      let response_msg : Message :=
        { id := "resp-" ++ toString now
          from_ := st.worker_id
          to_ := msg.from_
          channel := msg.channel
          content := response_content
          timestamp := toString now
          type := MessageType.RESPONSE
          metadata := [("request_id", msg.id), ("status", "success")] }
      { st with send_queue := st.send_queue ++ [response_msg] }
  | _ =>
      let response_content := (process_message handlers msg).1
      let response_msg : Message :=
        { id := "resp-" ++ toString now
          from_ := st.worker_id
          to_ := msg.from_
          channel := msg.channel
          content := response_content
          timestamp := toString now
          type := MessageType.RESPONSE
          metadata := [] }
      { st with send_queue := st.send_queue ++ [response_msg] }

/-- `WorkerSDK._receive_loop` over a finite inbound stream: processes each
envelope in order with `receive_step`, stopping early when `running` has
been cleared (the `if not self.running: break` at line 282). -/
def receive_loop (handlers : List (String × Handler)) (st : SDKState) :
    List Message → Nat → SDKState
  | [], _ => st
  | m :: rest, now =>
      if st.running then
        receive_loop handlers (receive_step handlers st m now) rest (now + 1)
      else
        st

/-- `WorkerSDK.stop` (worker_sdk.py lines 383-388): sets `running` to
`False` and closes the channel. It touches neither `pending_calls` nor
`send_queue`. -/
def stop (st : SDKState) : SDKState :=
  { st with running := false, channel_open := false }

/-! Concrete fixtures used by witnesses and counterexamples. -/

/-- A connected state with an empty correlation table and empty queue. -/
def st0 : SDKState :=
  { worker_id := "w1", running := true, channel_open := true,
    pending_calls := [], send_queue := [] }

/-- A connected state holding one still-registered pending call `"c1"`. -/
def st1 : SDKState :=
  { worker_id := "w1", running := true, channel_open := true,
    pending_calls := [("c1", freshPendingCall)], send_queue := [] }

/-- A disconnected state (before `run`, or after `stop`). -/
def stDown : SDKState :=
  { worker_id := "w1", running := false, channel_open := false,
    pending_calls := [("c1", freshPendingCall)], send_queue := [] }

/-- A plain `REQUEST` envelope addressed to capability `"echo"`. -/
def exReqMsg : Message :=
  { id := "r1", from_ := "caller", to_ := "w1", channel := "echo",
    content := Content.json (Value.dict [("message", Value.str "hi")]),
    timestamp := "t0", type := MessageType.REQUEST, metadata := [] }

/-- A `WORKER_CALL` envelope addressed to capability `"echo"`. -/
def exCallMsg : Message :=
  { id := "c7", from_ := "peer", to_ := "w1", channel := "echo",
    content := Content.json (Value.dict [("message", Value.str "hi")]),
    timestamp := "t0", type := MessageType.WORKER_CALL, metadata := [] }

/-- A `RESPONSE` envelope whose `request_id` matches no table entry. -/
def exStrayResp : Message :=
  { id := "x1", from_ := "peer", to_ := "w1", channel := "echo",
    content := Content.json (Value.dict [("ok", Value.bool true)]),
    timestamp := "t0", type := MessageType.RESPONSE,
    metadata := [("request_id", "zzz")] }

/-- A handler that always raises (for exercising the error path). -/
def raisingHandler : Handler := fun _ => Except.error "boom"

/-- A handler returning a non-dict value. -/
def scalarHandler : Handler := fun _ => Except.ok (Value.str "plain")

/-- A handler returning a dict value. -/
def dictHandler : Handler := fun _ => Except.ok (Value.dict [("echo", Value.str "hi")])

/-- A handler distinguishable from `handlerTwo` by its output. -/
def handlerOne : Handler := fun _ => Except.ok (Value.str "one")

/-- A handler distinguishable from `handlerOne` by its output. -/
def handlerTwo : Handler := fun _ => Except.ok (Value.str "two")

/-- A registry holding one capability `"cap"` registered with `handlerOne`
and description `"first"`. -/
def reg1 : Registry :=
  add_capability { capability_handlers := [], capabilities := [] }
    "cap" handlerOne "first" "POST" false "" "\x7b\x7d" "\x7b\x7d"

end WorkerSDK

/-! ## Theorems -/

namespace WorkerSDK

theorem dictGet_insert_self {α : Type} (d : List (String × α)) (k : String) (v : α) :
    dictGet (dictInsert d k v) k = some v := by
  induction d with
  | nil => simp [dictInsert, dictGet]
  | cons p rest ih =>
      obtain ⟨k', v'⟩ := p
      by_cases h : k' == k
      · simp [dictInsert, dictGet, h]
      · simp [dictInsert, dictGet, h, ih]

theorem dictGet_erase_self {α : Type} (d : List (String × α)) (k : String) :
    dictGet (dictErase d k) k = none := by
  induction d with
  | nil => simp [dictErase, dictGet]
  | cons p rest ih =>
      obtain ⟨k', v'⟩ := p
      by_cases h : k' == k
      · simp [dictErase, h, ih]
      · simp [dictErase, dictGet, h, ih]

/-- `receive_step` never changes the `running` flag. -/
theorem receive_step_running (handlers : List (String × Handler)) (st : SDKState)
    (msg : Message) (now : Nat) :
    (receive_step handlers st msg now).running = st.running := by
  cases h : msg.type <;> simp [receive_step, h]

/-- On a non-`RESPONSE` envelope, `receive_step` appends exactly one
response to the send queue. -/
theorem receive_step_queue_len (handlers : List (String × Handler)) (st : SDKState)
    (msg : Message) (now : Nat) (h : msg.type ≠ MessageType.RESPONSE) :
    (receive_step handlers st msg now).send_queue.length =
      st.send_queue.length + 1 := by
  cases htype : msg.type <;> first
    | (exact absurd htype h)
    | simp [receive_step, htype]

/-- On a non-`RESPONSE` envelope, `receive_step` appends to the send queue
one `RESPONSE` envelope whose content is the `process_message` output. -/
theorem receive_step_enqueues (handlers : List (String × Handler)) (st : SDKState)
    (msg : Message) (now : Nat) (h : msg.type ≠ MessageType.RESPONSE) :
    ∃ resp, (receive_step handlers st msg now).send_queue = st.send_queue ++ [resp] ∧
      resp.content = (process_message handlers msg).1 ∧
      resp.type = MessageType.RESPONSE := by
  cases htype : msg.type
  case RESPONSE => exact absurd htype h
  case WORKER_CALL =>
      refine ⟨{ id := "resp-" ++ toString now, from_ := st.worker_id, to_ := msg.from_,
                channel := msg.channel, content := (process_message handlers msg).1,
                timestamp := toString now, type := MessageType.RESPONSE,
                metadata := [("request_id", msg.id), ("status", "success")] },
              ?_, rfl, rfl⟩
      simp [receive_step, htype]
  all_goals
    refine ⟨{ id := "resp-" ++ toString now, from_ := st.worker_id, to_ := msg.from_,
              channel := msg.channel, content := (process_message handlers msg).1,
              timestamp := toString now, type := MessageType.RESPONSE,
              metadata := [] },
            ?_, rfl, rfl⟩
  all_goals simp [receive_step, htype]

/-- While `running`, the receive loop emits one response per non-`RESPONSE`
inbound envelope: no envelope stops the loop. -/
theorem receive_loop_queue_len (handlers : List (String × Handler)) :
    ∀ (msgs : List Message) (st : SDKState) (now : Nat),
      st.running = true →
      (∀ m ∈ msgs, m.type ≠ MessageType.RESPONSE) →
      (receive_loop handlers st msgs now).send_queue.length =
        st.send_queue.length + msgs.length := by
  intro msgs
  induction msgs with
  | nil => intro st now _ _; simp [receive_loop]
  | cons m rest ih =>
      intro st now hrun hall
      have hrun' : (receive_step handlers st m now).running = true := by
        rw [receive_step_running]; exact hrun
      have hm : m.type ≠ MessageType.RESPONSE := hall m (List.mem_cons_self m rest)
      have hrest : ∀ x ∈ rest, x.type ≠ MessageType.RESPONSE := by
        intro x hx; exact hall x (List.mem_cons_of_mem m hx)
      rw [receive_loop, if_pos hrun, ih _ _ hrun' hrest,
          receive_step_queue_len handlers st m now hm]
      simp only [List.length_cons]
      omega

/-- C10: calling `call_worker` while the worker is not running raises
`RuntimeError` (result `notRunning`) before any correlation id is generated
(the executed operation trace is empty, so in particular it contains no
`genId`), and the state — including `pending_calls` and `send_queue` — is
returned unchanged. -/
theorem call_worker_not_running (st : SDKState) (target capability : String)
    (params : Value) (request_id ts : String) (timeout : Nat) (wait : WaitOutcome)
    (h : st.running = false) :
    call_worker st target capability params request_id ts timeout wait =
      (CallResult.notRunning, st, []) := by
  simp [call_worker, h]

theorem call_worker_not_running_witness :
    call_worker stDown "w2" "double" Value.null "rid-0" "t0" 30 WaitOutcome.timedOut =
      (CallResult.notRunning, stDown, []) :=
  call_worker_not_running stDown "w2" "double" Value.null "rid-0" "t0" 30
    WaitOutcome.timedOut rfl

/-- C3: when the wait in `call_worker` times out, the call raises
`TimeoutError` (with the "No response from ... after ...s" message) and the
correlation table afterwards holds no entry for the call's correlation
id. -/
theorem call_worker_timeout_removes_entry (st : SDKState)
    (target capability : String) (params : Value) (request_id ts : String)
    (timeout : Nat) (hrun : st.running = true) :
    (call_worker st target capability params request_id ts timeout
        WaitOutcome.timedOut).1 =
      CallResult.timeout
        ("No response from " ++ target ++ " after " ++ toString timeout ++ "s") ∧
    dictGet (call_worker st target capability params request_id ts timeout
        WaitOutcome.timedOut).2.1.pending_calls request_id = none := by
  constructor
  · simp [call_worker, hrun]
  · simp [call_worker, hrun, call_worker_ops, applyOps, applyOp,
          dictGet_erase_self]

theorem call_worker_timeout_removes_entry_witness :
    (call_worker st0 "w2" "double" Value.null "rid-1" "t1" 5
        WaitOutcome.timedOut).1 =
      CallResult.timeout "No response from w2 after 5s" ∧
    dictGet (call_worker st0 "w2" "double" Value.null "rid-1" "t1" 5
        WaitOutcome.timedOut).2.1.pending_calls "rid-1" = none :=
  call_worker_timeout_removes_entry st0 "w2" "double" Value.null "rid-1" "t1" 5 rfl

/-- C4: an inbound `RESPONSE` whose `metadata.request_id` is missing, empty,
or matches no entry of `pending_calls` is discarded: no error is raised
(the function is total and takes the discard branch), the correlation table
is returned unchanged binding-for-binding, and no waiter is signalled —
so every other pending call's waiter and result slots are untouched. -/
theorem stray_response_discarded (pending : List (String × PendingCall))
    (msg : Message)
    (h : (dictGet msg.metadata "request_id").getD "" = "" ∨
         dictGet pending ((dictGet msg.metadata "request_id").getD "") = none) :
    handle_worker_call_response pending msg = (pending, none) := by
  have hcond : ¬ ((dictGet msg.metadata "request_id").getD "" ≠ "" ∧
      (dictGet pending ((dictGet msg.metadata "request_id").getD "")).isSome = true) := by
    rcases h with h | h
    · rintro ⟨h1, _⟩; exact h1 h
    · rintro ⟨_, h2⟩; rw [h] at h2; simp at h2
  simp only [handle_worker_call_response]
  rw [if_neg hcond]

theorem stray_response_discarded_witness :
    handle_worker_call_response [("c1", freshPendingCall)] exStrayResp =
      ([("c1", freshPendingCall)], none) :=
  stray_response_discarded [("c1", freshPendingCall)] exStrayResp (Or.inr rfl)

/-- C5: an inbound envelope naming a capability absent from the registry is
answered by `process_message` with the `status=failed` payload whose error
message names the unknown capability, and no handler is invoked (the
invocation trace is empty); moreover, for a non-`RESPONSE` envelope the
dispatcher enqueues exactly that payload as the response content. -/
theorem unknown_capability_failed_response (handlers : List (String × Handler))
    (st : SDKState) (msg : Message) (now : Nat)
    (hmiss : dictGet handlers msg.channel = none) :
    process_message handlers msg =
      (Content.json (Value.dict
        [("error", Value.str ("Unknown capability: " ++ msg.channel)),
         ("status", Value.str "failed")]), []) ∧
    (msg.type ≠ MessageType.RESPONSE →
      ∃ resp, (receive_step handlers st msg now).send_queue = st.send_queue ++ [resp] ∧
        resp.content = Content.json (Value.dict
          [("error", Value.str ("Unknown capability: " ++ msg.channel)),
           ("status", Value.str "failed")])) := by
  have hpm : process_message handlers msg =
      (Content.json (Value.dict
        [("error", Value.str ("Unknown capability: " ++ msg.channel)),
         ("status", Value.str "failed")]), []) := by
    simp [process_message, hmiss]
  refine ⟨hpm, fun hnr => ?_⟩
  obtain ⟨resp, hq, hc, _⟩ := receive_step_enqueues handlers st msg now hnr
  exact ⟨resp, hq, by rw [hc, hpm]⟩

theorem unknown_capability_failed_response_witness :
    process_message [] exReqMsg =
      (Content.json (Value.dict
        [("error", Value.str "Unknown capability: echo"),
         ("status", Value.str "failed")]), []) ∧
    (exReqMsg.type ≠ MessageType.RESPONSE →
      ∃ resp, (receive_step [] st0 exReqMsg 0).send_queue = [] ++ [resp] ∧
        resp.content = Content.json (Value.dict
          [("error", Value.str "Unknown capability: echo"),
           ("status", Value.str "failed")])) :=
  unknown_capability_failed_response [] st0 exReqMsg 0 rfl

/-- C6: when a registered handler raises, `process_message` catches the
exception at the dispatch boundary and produces the structured
`status=failed` payload carrying the error message (the handler was
invoked, nothing propagates — the function is total); and the receive loop
keeps going: over any finite inbound stream of non-`RESPONSE` envelopes it
enqueues one response per envelope, regardless of what the handlers do. -/
theorem handler_exception_contained (handlers : List (String × Handler))
    (st : SDKState) (msgs : List Message) (now : Nat) (msg : Message)
    (handler : Handler) (params : Value) (e : String)
    (hfind : dictGet handlers msg.channel = some handler)
    (hparse : loadsOrEmpty msg.content = some params)
    (herr : handler params = Except.error e)
    (hrun : st.running = true)
    (hmsgs : ∀ m ∈ msgs, m.type ≠ MessageType.RESPONSE) :
    process_message handlers msg =
      (Content.json (Value.dict
        [("error", Value.str e), ("status", Value.str "failed")]),
       [msg.channel]) ∧
    (receive_loop handlers st msgs now).send_queue.length =
      st.send_queue.length + msgs.length := by
  constructor
  · simp [process_message, hfind, hparse, herr]
  · exact receive_loop_queue_len handlers msgs st now hrun hmsgs

theorem handler_exception_contained_witness :
    process_message [("echo", raisingHandler)] exCallMsg =
      (Content.json (Value.dict
        [("error", Value.str "boom"), ("status", Value.str "failed")]),
       ["echo"]) ∧
    (receive_loop [("echo", raisingHandler)] st0 [exReqMsg, exCallMsg] 0).send_queue.length =
      2 :=
  handler_exception_contained [("echo", raisingHandler)] st0 [exReqMsg, exCallMsg] 0
    exCallMsg raisingHandler (Value.dict [("message", Value.str "hi")]) "boom"
    rfl rfl rfl rfl (by decide)

/-- C9: when a registered handler returns normally, the dispatcher
serializes the result unchanged if it is a dict, and wraps it as
`{"result": value}` if it is not. -/
theorem handler_result_dict_wrapping (handlers : List (String × Handler))
    (msg : Message) (handler : Handler) (params v : Value)
    (hfind : dictGet handlers msg.channel = some handler)
    (hparse : loadsOrEmpty msg.content = some params)
    (hok : handler params = Except.ok v) :
    (v.isDict = true →
      process_message handlers msg = (Content.json v, [msg.channel])) ∧
    (v.isDict = false →
      process_message handlers msg =
        (Content.json (Value.dict [("result", v)]), [msg.channel])) := by
  constructor <;> intro hd <;> simp [process_message, hfind, hparse, hok, hd]

theorem handler_result_dict_wrapping_witness :
    process_message [("echo", scalarHandler)] exReqMsg =
      (Content.json (Value.dict [("result", Value.str "plain")]), ["echo"]) :=
  (handler_result_dict_wrapping [("echo", scalarHandler)] exReqMsg scalarHandler
    (Value.dict [("message", Value.str "hi")]) (Value.str "plain") rfl rfl rfl).2 rfl

/-- C8: in every running execution of `call_worker`, the operation trace
splits around the unique `enqueue` of the `CALL` envelope: the pending-call
registration for the fresh correlation id lies strictly before it (in the
prefix `pre`), no other enqueue occurs, and at the moment the envelope is
enqueued the correlation table already holds the freshly registered waiter
— so a response can never arrive before its waiter exists. -/
theorem register_before_enqueue (st : SDKState) (target capability : String)
    (params : Value) (request_id ts : String) (timeout : Nat)
    (wait : WaitOutcome) (hrun : st.running = true) :
    ∃ pre post,
      (call_worker st target capability params request_id ts timeout wait).2.2 =
        pre ++ Op.enqueue (mkCallMsg st.worker_id target capability params
          request_id ts) :: post ∧
      Op.registerPending request_id ∈ pre ∧
      (∀ m, Op.enqueue m ∉ pre) ∧
      (∀ m, Op.enqueue m ∉ post) ∧
      dictGet (applyOps st (pre ++ [Op.enqueue (mkCallMsg st.worker_id target
          capability params request_id ts)])).pending_calls request_id =
        some freshPendingCall := by
  cases wait with
  | resolvedOk v =>
      refine ⟨[Op.genId request_id, Op.registerPending request_id], [],
              ?_, by simp, ?_, ?_, ?_⟩
      · simp [call_worker, call_worker_ops, hrun]
      · intro m; simp
      · intro m; simp
      · simp [applyOps, applyOp, dictGet_insert_self]
  | resolvedErr e =>
      refine ⟨[Op.genId request_id, Op.registerPending request_id], [],
              ?_, by simp, ?_, ?_, ?_⟩
      · simp [call_worker, call_worker_ops, hrun]
      · intro m; simp
      · intro m; simp
      · simp [applyOps, applyOp, dictGet_insert_self]
  | timedOut =>
      refine ⟨[Op.genId request_id, Op.registerPending request_id],
              [Op.popPending request_id], ?_, by simp, ?_, ?_, ?_⟩
      · simp [call_worker, call_worker_ops, hrun]
      · intro m; simp
      · intro m; simp
      · simp [applyOps, applyOp, dictGet_insert_self]

theorem register_before_enqueue_witness :
    ∃ pre post,
      (call_worker st0 "w2" "double" Value.null "rid-9" "t9" 5
          (WaitOutcome.resolvedOk (Value.num 42))).2.2 =
        pre ++ Op.enqueue (mkCallMsg "w1" "w2" "double" Value.null "rid-9" "t9")
          :: post ∧
      Op.registerPending "rid-9" ∈ pre ∧
      (∀ m, Op.enqueue m ∉ pre) ∧
      (∀ m, Op.enqueue m ∉ post) ∧
      dictGet (applyOps st0 (pre ++ [Op.enqueue (mkCallMsg "w1" "w2" "double"
          Value.null "rid-9" "t9")])).pending_calls "rid-9" =
        some freshPendingCall :=
  register_before_enqueue st0 "w2" "double" Value.null "rid-9" "t9" 5
    (WaitOutcome.resolvedOk (Value.num 42)) rfl

/-- C1 counterexample: the dispatcher answers the plain `REQUEST` envelope
`exReqMsg` (id `"r1"`) through the "Regular REQUEST" branch of
`_receive_loop`, which builds the `RESPONSE` with empty metadata — so the
enqueued reply's `metadata.request_id` is absent, not `some "r1"` as the
claim requires. -/
theorem request_branch_missing_request_id :
    ((receive_step [("echo", dictHandler)] st0 exReqMsg 0).send_queue.map
        (fun r => dictGet r.metadata "request_id")) = [none] ∧
    (none : Option String) ≠ some exReqMsg.id := by
  constructor
  · rfl
  · decide

/-- C1 amended: only the `WORKER_CALL` branch of `_receive_loop` copies the
originating envelope's `id` into the reply's `metadata.request_id` (along
with `status=success`); the plain `REQUEST` branch enqueues its `RESPONSE`
with empty metadata and therefore no `request_id` at all. -/
theorem response_request_id_per_branch (handlers : List (String × Handler))
    (st : SDKState) (msg : Message) (now : Nat) :
    (msg.type = MessageType.WORKER_CALL →
      ∃ resp, (receive_step handlers st msg now).send_queue = st.send_queue ++ [resp] ∧
        dictGet resp.metadata "request_id" = some msg.id ∧
        dictGet resp.metadata "status" = some "success" ∧
        resp.type = MessageType.RESPONSE) ∧
    (msg.type = MessageType.REQUEST →
      ∃ resp, (receive_step handlers st msg now).send_queue = st.send_queue ++ [resp] ∧
        resp.metadata = [] ∧
        resp.type = MessageType.RESPONSE) := by
  constructor
  · intro htype
    refine ⟨{ id := "resp-" ++ toString now, from_ := st.worker_id, to_ := msg.from_,
              channel := msg.channel, content := (process_message handlers msg).1,
              timestamp := toString now, type := MessageType.RESPONSE,
              metadata := [("request_id", msg.id), ("status", "success")] },
            ?_, rfl, rfl, rfl⟩
    simp [receive_step, htype]
  · intro htype
    refine ⟨{ id := "resp-" ++ toString now, from_ := st.worker_id, to_ := msg.from_,
              channel := msg.channel, content := (process_message handlers msg).1,
              timestamp := toString now, type := MessageType.RESPONSE,
              metadata := [] },
            ?_, rfl, rfl⟩
    simp [receive_step, htype]

theorem response_request_id_per_branch_witness :
    ∃ resp, (receive_step [("echo", dictHandler)] st0 exCallMsg 0).send_queue =
        [] ++ [resp] ∧
      dictGet resp.metadata "request_id" = some "c7" ∧
      dictGet resp.metadata "status" = some "success" ∧
      resp.type = MessageType.RESPONSE :=
  (response_request_id_per_branch [("echo", dictHandler)] st0 exCallMsg 0).1 rfl

/-- C2 counterexample: with the pending call `"c1"` still registered,
`stop` releases the channel but leaves the entry in `pending_calls`
untouched — its completion event is not set and no connection-closed error
is delivered, contradicting the claim that every pending call is resolved
before the channel is released. -/
theorem stop_leaves_pending_call_unresolved :
    (stop st1).channel_open = false ∧
    (stop st1).pending_calls = [("c1", freshPendingCall)] ∧
    freshPendingCall.event_set = false ∧
    freshPendingCall.error = none :=
  ⟨rfl, rfl, rfl, rfl⟩

/-- C2 amended: entering `Closing` via `stop` (and likewise via the receive
loop's exit path, which only clears `running`) merely clears `running` and
closes the channel; the correlation table and the send queue are left
exactly as they were, so a caller blocked in `call_worker` is not resolved
at shutdown and unblocks only when its own call timeout elapses. -/
theorem stop_changes_only_connection_flags (st : SDKState) :
    (stop st).pending_calls = st.pending_calls ∧
    (stop st).send_queue = st.send_queue ∧
    (stop st).running = false ∧
    (stop st).channel_open = false :=
  ⟨rfl, rfl, rfl, rfl⟩

/-- C7 counterexample: `reg1` registers `"cap"` with `handlerOne` and
description `"first"`; registering `"cap"` again with `handlerTwo` and
description `"second"` does not fail — `add_capability` returns a registry
in which both the descriptor and the handler for `"cap"` have been
silently replaced. -/
theorem add_capability_silent_overwrite :
    (dictGet reg1.capabilities "cap").map Capability.description = some "first" ∧
    (dictGet (add_capability reg1 "cap" handlerTwo "second" "POST" false ""
        "\x7b\x7d" "\x7b\x7d").capabilities "cap").map Capability.description =
      some "second" ∧
    (dictGet (add_capability reg1 "cap" handlerTwo "second" "POST" false ""
        "\x7b\x7d" "\x7b\x7d").capability_handlers "cap").map
        (fun h => h Value.null) =
      some (Except.ok (Value.str "two")) :=
  ⟨rfl, rfl, rfl⟩

/-- C7 amended: `add_capability` never fails and performs no duplicate
check: registering a name installs the given handler and the freshly built
descriptor under that name, silently replacing any existing binding. -/
theorem add_capability_installs_binding (reg : Registry) (name : String)
    (handler : Handler) (description http_method : String) (accepts_file : Bool)
    (file_field_name input_schema output_schema : String) :
    dictGet (add_capability reg name handler description http_method accepts_file
        file_field_name input_schema output_schema).capability_handlers name =
      some handler ∧
    (dictGet (add_capability reg name handler description http_method accepts_file
        file_field_name input_schema output_schema).capabilities name).map
        Capability.description =
      some description := by
  constructor
  · simp [add_capability, dictGet_insert_self]
  · simp [add_capability, dictGet_insert_self]

end WorkerSDK
